import Mathlib

/-!
Shallow embedding of `src/server.py` (a Flask licensing / session / relay
server) and proofs about the claims of its specification.

Modelling conventions:
- Time: `time.time()` values are modelled as natural-number seconds.  The
  only use of time in the source is the comparison
  `time.time() - creation_time > SESSION_LIFETIME_SECONDS`; for natural
  numbers `now - c > L` (truncated subtraction) coincides with the real
  comparison whenever `now ≥ c`, and both are false when `now < c`.
- The SQLite table `licenses` is an association list from the TEXT primary
  key to the row; `SELECT ... WHERE key = ?` is first-match lookup and
  `UPDATE ... WHERE key = ?` rewrites every matching row (a primary key has
  at most one).  Nullable TEXT columns are `Option String`.
- The in-memory dict `ACTIVE_SESSIONS` is an association list from token to
  session record; dict assignment overwrites, `dict.pop` removes.
- Request bodies: `request.get_json()` may fail to parse (Flask itself then
  answers with a 4xx before the handler body runs) or may produce any JSON
  value.  Parseable non-object values split by how the decorator's checks
  `if not data or 'session_token' not in data` and `data['session_token']`
  treat them: `null` and the falsy values (false, 0, empty string or array)
  fail `not data` and read as missing; truthy non-iterables (true, nonzero
  numbers) raise `TypeError` at the membership test; truthy strings and
  arrays pass the membership test and, when they do contain the field name
  (substring or element), raise `TypeError` at the subscript.  An unhandled
  exception surfaces as the framework's generic 500.  In `/validate` every
  parseable non-object raises `AttributeError` at `data.get`.  Field values
  that appear in these handlers are strings, so modelled object fields are
  string-valued; a present-but-empty string is falsy in Python exactly like
  an absent field, which the embedding spells out at each `if not x` check.
- The two network collaborators (the downstream stress service) are oracles
  passed in as functions; the attempt counter argument records how many
  requests the handler has already issued, so dependence on attempts > 0
  would be a retry.
-/

/-- Constant `SESSION_LIFETIME_SECONDS = 7200` (server.py line 14). -/
def SESSION_LIFETIME_SECONDS : Nat := 7200

/-- A row of the `licenses` table: `key` is the association-list key,
`hwid` and `ip_address` are nullable TEXT, `status` defaults to
`active` (server.py lines 31-38). -/
structure License where
  hwid : Option String
  ip_address : Option String
  status : String
deriving DecidableEq, Repr

/-- The `licenses` table, keyed by the TEXT primary key. -/
abbrev DB := List (String × License)

/-- Query `SELECT * FROM licenses WHERE key = ?` with `fetchone` (first match). -/
def dbGet : DB → String → Option License
  | [], _ => none
  | p :: tl, k => if p.1 = k then some p.2 else dbGet tl k

/-- Statement `UPDATE licenses SET hwid = ?, ip_address = ? WHERE key = ?`:
rewrites every row whose key matches; inserts nothing. -/
def dbSet : DB → String → License → DB
  | [], _, _ => []
  | p :: tl, k, l => (if p.1 = k then (k, l) else p) :: dbSet tl k l

/-- One value of `ACTIVE_SESSIONS` (server.py lines 23-25, 128-132). -/
structure SessionInfo where
  license_key : String
  ip_address : String
  creation_time : Nat
deriving DecidableEq, Repr

/-- The `ACTIVE_SESSIONS` dict, token to session record. -/
abbrev Sessions := List (String × SessionInfo)

/-- Lookup `ACTIVE_SESSIONS.get(token)`. -/
def sGet : Sessions → String → Option SessionInfo
  | [], _ => none
  | p :: tl, t => if p.1 = t then some p.2 else sGet tl t

/-- Removal `ACTIVE_SESSIONS.pop(token, None)`: drop every entry for the token. -/
def sPop : Sessions → String → Sessions
  | [], _ => []
  | p :: tl, t => if p.1 = t then sPop tl t else p :: sPop tl t

/-- Assignment `ACTIVE_SESSIONS[token] = info`: dict store (overwrite). -/
def sPut (ss : Sessions) (t : String) (i : SessionInfo) : Sessions :=
  (t, i) :: sPop ss t

/-- The transport-level data of a request that the handlers read:
the optional `X-Forwarded-For` header and `request.remote_addr`. -/
structure Request where
  xForwardedFor : Option String
  remote_addr : String
deriving DecidableEq, Repr

/-- Python `str.strip()`: drop leading and trailing whitespace. -/
def pyStrip (s : String) : String :=
  ⟨((s.data.dropWhile Char.isWhitespace).reverse.dropWhile
      Char.isWhitespace).reverse⟩

/-- Python `s.split(',')[0]`: the prefix of `s` before its first comma
(all of `s` when it has no comma). -/
def splitFirst (s : String) : String :=
  ⟨s.data.takeWhile (fun c => c ≠ ',')⟩

/-- Helper `get_real_ip` (server.py lines 48-52): first comma-separated entry of
`X-Forwarded-For`, stripped, when the header is present; otherwise
`request.remote_addr`. -/
def get_real_ip (r : Request) : String :=
  match r.xForwardedFor with
  | some h => pyStrip (splitFirst h)
  | none => r.remote_addr

/-- The JSON body of a request, as far as these handlers inspect it.
`malformed` is a body `request.get_json()` cannot parse (Flask answers
4xx before the handler body runs).  Parseable non-object values are split
by how the decorator's checks behave on them: `nullBody` is JSON `null`
(Python `None`, falsy); `falsyNonObject` is any other falsy non-object
(false, 0, 0.0, the empty string or array); `truthyNonIterable` is a
truthy value the `in` operator rejects (true, a nonzero number), raising
`TypeError` at the membership test; `truthyIterable b` is a truthy string
or array, with `b` recording whether it contains the token field name
(as substring or element), in which case the subscript raises `TypeError`.
`obj` is an object whose relevant fields are strings. -/
inductive ReqBody where
  | malformed : ReqBody
  | nullBody : ReqBody
  | falsyNonObject : ReqBody
  | truthyNonIterable : ReqBody
  | truthyIterable : Bool → ReqBody
  | obj : List (String × String) → ReqBody
deriving DecidableEq, Repr

/-- First-match lookup in the field list of a JSON object. -/
def fieldGet : List (String × String) → String → Option String
  | [], _ => none
  | p :: tl, k => if p.1 = k then some p.2 else fieldGet tl k

/-- Reading `data.get(field)` on an object body; `none` on anything else. -/
def ReqBody.get : ReqBody → String → Option String
  | .obj fields, k => fieldGet fields k
  | _, _ => none

/-- The outcome of the `require_session` decorator's checks
(server.py lines 55-80).  `badRequest` is the framework's response to an
unparseable body; `serverError` is the framework's generic 500 page for
an exception escaping the decorator (the `TypeError` paths); the four
failure constructors carry the code's four distinct rejection reasons;
`valid` carries the resolved session. -/
inductive GateResult where
  | badRequest : GateResult
  | serverError : GateResult
  | missing : GateResult
  | notFound : GateResult
  | expired : GateResult
  | ipMismatch : GateResult
  | valid : SessionInfo → GateResult
deriving DecidableEq, Repr

/-- Decorator check `require_session` (server.py lines 55-80): resolve the presented token
against `ACTIVE_SESSIONS` for a request arriving at time `now`, returning
the gate outcome and the (possibly mutated) session dict.  An expired
token is popped; every other branch leaves the dict unchanged. -/
def require_session (ss : Sessions) (body : ReqBody) (r : Request)
    (now : Nat) : GateResult × Sessions :=
  match body with
  | .malformed => (.badRequest, ss)
  | .nullBody => (.missing, ss)
  | .falsyNonObject => (.missing, ss)
  | .truthyNonIterable => (.serverError, ss)
  | .truthyIterable true => (.serverError, ss)
  | .truthyIterable false => (.missing, ss)
  | .obj fields =>
    match (ReqBody.obj fields).get ("session_token") with
    | none => (.missing, ss)
    | some token =>
      match sGet ss token with
      | none => (.notFound, ss)
      | some info =>
        if now - info.creation_time > SESSION_LIFETIME_SECONDS then
          (.expired, sPop ss token)
        else if info.ip_address ≠ get_real_ip r then
          (.ipMismatch, ss)
        else
          (.valid info, ss)

/-- The HTTP status and message each non-`valid` gate outcome produces
(server.py lines 59-75); `none` for `valid`, where the handler runs. -/
def gateResponse : GateResult → Option (Nat × String)
  | .badRequest => some (400, "Bad Request")
  | .serverError => some (500, "Internal Server Error")
  | .missing => some (401, "Session token missing.")
  | .notFound => some (401, "Invalid session token.")
  | .expired => some (401, "Session has expired.")
  | .ipMismatch => some (401, "IP address mismatch.")
  | .valid _ => none

/-- The response of the `/validate` endpoint together with the state it
leaves behind (server.py lines 88-138): HTTP status, the `message` field,
the `session_token` field when one was issued, and the resulting
`licenses` table and `ACTIVE_SESSIONS` dict. -/
structure VOut where
  status : Nat
  message : String
  session_token : Option String
  db : DB
  sessions : Sessions
deriving DecidableEq, Repr

/-- Handler `validate_license` (server.py lines 88-138).  `newToken` stands for the
freshly generated random `sess_...` string of line 127.  A non-object body
makes `data.get` raise `AttributeError`, which the framework reports as a
500 internal server error; a body Flask cannot parse is answered 400 by
the framework before the handler body runs.  A present-but-empty field is
falsy in Python exactly like an absent one, and the first-activation test
`if not license_data['hwid']` is likewise true for NULL and for the empty
string. -/
def validate_license (db : DB) (ss : Sessions) (body : ReqBody)
    (r : Request) (now : Nat) (newToken : String) : VOut :=
  match body with
  | .malformed => ⟨400, "Bad Request", none, db, ss⟩
  | .nullBody | .falsyNonObject | .truthyNonIterable | .truthyIterable _ =>
    ⟨500, "Internal Server Error", none, db, ss⟩
  | .obj fields =>
    let data := ReqBody.obj fields
    let license_key := data.get ("license_key")
    let machine_code := data.get ("machine_code")
    let user_ip := get_real_ip r
    if license_key.getD ("") = ("") ∨ machine_code.getD ("") = ("") then
      ⟨400, "Missing license key or machine code.", none, db, ss⟩
    else
      let lk := license_key.getD ("")
      let mc := machine_code.getD ("")
      match dbGet db lk with
      | none => ⟨404, "License key not found.", none, db, ss⟩
      | some lic =>
        if lic.status ≠ "active" then
          ⟨403, "License is not active (status: " ++ lic.status ++ ").",
            none, db, ss⟩
        else if lic.hwid.getD ("") = ("") then
          ⟨200, "Validation successful. Session created.", some newToken,
            dbSet db lk ⟨some mc, some user_ip, lic.status⟩,
            sPut ss newToken ⟨lk, user_ip, now⟩⟩
        else if lic.hwid ≠ some mc then
          ⟨403, "HWID does not match.", none, db, ss⟩
        else if lic.ip_address ≠ some user_ip then
          ⟨403, "IP address does not match.", none, db, ss⟩
        else
          ⟨200, "Validation successful. Session created.", some newToken,
            db, sPut ss newToken ⟨lk, user_ip, now⟩⟩

/-- The `@require_session` decorator applied to a handler: on `valid` the
handler body runs with the resolved session and the session dict; on any
other outcome the handler body never runs and the gate's own response is
returned (server.py lines 56-80, 145, 166, 184, 198). -/
def gatedCall (handler : SessionInfo → Sessions → (Nat × String) × Sessions)
    (ss : Sessions) (body : ReqBody) (r : Request) (now : Nat) :
    (Nat × String) × Sessions :=
  match require_session ss body r now with
  | (.valid info, ss1) => handler info ss1
  | (g, ss1) => ((gateResponse g).getD (0, ""), ss1)

/-- The client parameters forwarded by `/proxy/start`
(server.py lines 151-157). -/
structure StartParams where
  host : Option String
  port : Option String
  time : Option String
  method : Option String
deriving DecidableEq, Repr

/-- What one `requests.get(...)` plus `.json()` inside the `try` block can
produce: a relayed body and downstream status, or a raised exception
(timeout, connection failure, non-JSON body) carrying its message. -/
inductive Downstream where
  | ok : String → Nat → Downstream
  | failure : String → Downstream
deriving DecidableEq, Repr

/-- Handler `proxy_start` (server.py lines 144-162).  `downstream n p` is the
outcome the network would give the (n+1)-th request the handler issued
with parameters `p`; the handler issues exactly one, so only attempt 0 is
ever consulted.  `if not LAGSWITCH_API_KEY` is true for an unset or empty
key. -/
def proxy_start (apiKey : Option String)
    (downstream : Nat → StartParams → Downstream)
    (ss : Sessions) (body : ReqBody) (r : Request) (now : Nat) :
    (Nat × String) × Sessions :=
  gatedCall
    (fun _info ss1 =>
      if apiKey.getD ("") = ("") then
        ((500, "Server configuration error."), ss1)
      else
        match downstream 0
            ⟨body.get ("host"), body.get ("port"),
              body.get ("time"), body.get ("method")⟩ with
        | .ok respBody code => ((code, respBody), ss1)
        | .failure e => ((502, "Failed to contact service: " ++ e), ss1))
    ss body r now

/-- Result of the external license-authority collaborator
(spec section 6): accept, or reject with a pass-through reason. -/
inductive AuthResult where
  | accept : AuthResult
  | reject : String → AuthResult
deriving DecidableEq, Repr

/-- Result of the spec's `LicenseBinder.validate`. -/
inductive SpecVResult where
  | accepted : SpecVResult
  | rejected : String → SpecVResult
deriving DecidableEq, Repr

/-- Modelled from the spec: the `LicenseBinder.validate` algorithm of spec
section 4.2, including what `src/server.py` does not contain — the
consultation of the external license-authority collaborator with
(key, hwid) on every validation: on reject the reason is propagated
verbatim and no binding happens; on accept an unbound license is
atomically bound to (hwid, address).  This definition exists to be
compared against `validate_license`, which performs no authority call. -/
def spec_validate (authority : String → String → AuthResult)
    (db : DB) (key hwid addr : String) : SpecVResult × DB :=
  match dbGet db key with
  | none => (.rejected ("not found"), db)
  | some lic =>
    if lic.status ≠ "active" then
      (.rejected ("license inactive: " ++ lic.status), db)
    else
      match lic.hwid with
      | none =>
        match authority key hwid with
        | .reject reason => (.rejected reason, db)
        | .accept =>
          (.accepted, dbSet db key ⟨some hwid, some addr, lic.status⟩)
      | some storedHwid =>
        if storedHwid ≠ hwid then
          (.rejected ("hardware mismatch"), db)
        else if lic.ip_address ≠ some addr then
          (.rejected ("address mismatch"), db)
        else
          match authority key hwid with
          | .reject reason => (.rejected reason, db)
          | .accept => (.accepted, db)

/-- A popped token is gone from the dict. -/
theorem sGet_sPop (ss : Sessions) (t : String) : sGet (sPop ss t) t = none := by
  induction ss with
  | nil => rfl
  | cons p tl ih =>
    by_cases h : p.1 = t
    · simpa [sPop, h] using ih
    · simpa [sPop, h, sGet] using ih

/-- Updating a row keeps it retrievable, with the new value, as long as the
row existed. -/
theorem dbGet_dbSet_self (db : DB) (k : String) (l0 l : License)
    (h : dbGet db k = some l0) : dbGet (dbSet db k l) k = some l := by
  induction db with
  | nil => simp [dbGet] at h
  | cons p tl ih =>
    by_cases hp : p.1 = k
    · simp [dbSet, hp, dbGet]
    · rw [dbGet, if_neg hp] at h
      simp [dbSet, hp, dbGet, ih h]

/-- Updating one key leaves every other key's lookup unchanged. -/
theorem dbGet_dbSet_ne (db : DB) (k k' : String) (l : License)
    (h : k' ≠ k) : dbGet (dbSet db k l) k' = dbGet db k' := by
  induction db with
  | nil => rfl
  | cons p tl ih =>
    by_cases hp : p.1 = k
    · have h1 : k ≠ k' := fun hh => h hh.symm
      have h2 : p.1 ≠ k' := by rw [hp]; exact h1
      simp [dbSet, hp, dbGet, h1, h2, ih]
    · by_cases hq : p.1 = k'
      · simp [dbSet, hp, dbGet, hq, h]
      · simp [dbSet, hp, dbGet, hq, ih]

/-- Unfolding the gate on an object body that does present a token. -/
theorem require_session_obj (ss : Sessions) (fields : List (String × String))
    (r : Request) (now : Nat) (t : String)
    (ht : fieldGet fields ("session_token") = some t) :
    require_session ss (.obj fields) r now =
      match sGet ss t with
      | none => (.notFound, ss)
      | some info =>
        if now - info.creation_time > SESSION_LIFETIME_SECONDS then
          (.expired, sPop ss t)
        else if info.ip_address ≠ get_real_ip r then
          (.ipMismatch, ss)
        else
          (.valid info, ss) := by
  simp [require_session, ReqBody.get, ht]

/-- The gate on a token absent from the registry. -/
theorem gate_notFound (ss : Sessions) (fields : List (String × String))
    (r : Request) (now : Nat) (t : String)
    (ht : fieldGet fields ("session_token") = some t)
    (hs : sGet ss t = none) :
    require_session ss (.obj fields) r now = (.notFound, ss) := by
  rw [require_session_obj ss fields r now t ht, hs]

/-- The gate on a token past its lifetime: it answers expired and pops. -/
theorem gate_expired (ss : Sessions) (fields : List (String × String))
    (r : Request) (now : Nat) (t : String) (info : SessionInfo)
    (ht : fieldGet fields ("session_token") = some t)
    (hs : sGet ss t = some info)
    (hexp : now - info.creation_time > SESSION_LIFETIME_SECONDS) :
    require_session ss (.obj fields) r now = (.expired, sPop ss t) := by
  rw [require_session_obj ss fields r now t ht, hs]
  simp [hexp]

/-- The gate on a live token presented from the wrong address: it answers
with the mismatch and leaves the registry untouched. -/
theorem gate_ipMismatch (ss : Sessions) (fields : List (String × String))
    (r : Request) (now : Nat) (t : String) (info : SessionInfo)
    (ht : fieldGet fields ("session_token") = some t)
    (hs : sGet ss t = some info)
    (hexp : now - info.creation_time ≤ SESSION_LIFETIME_SECONDS)
    (hip : info.ip_address ≠ get_real_ip r) :
    require_session ss (.obj fields) r now = (.ipMismatch, ss) := by
  rw [require_session_obj ss fields r now t ht, hs]
  simp [Nat.not_lt.mpr hexp, hip]

/-- The gate resolves `valid` exactly on a registered, within-lifetime,
address-matching token. -/
theorem gate_valid_iff (ss : Sessions) (fields : List (String × String))
    (r : Request) (now : Nat) (t : String) (info : SessionInfo)
    (ht : fieldGet fields ("session_token") = some t) :
    (require_session ss (.obj fields) r now).1 = .valid info ↔
      sGet ss t = some info ∧
      now - info.creation_time ≤ SESSION_LIFETIME_SECONDS ∧
      info.ip_address = get_real_ip r := by
  rw [require_session_obj ss fields r now t ht]
  cases hs : sGet ss t with
  | none => simp
  | some i =>
    by_cases hexp : now - i.creation_time > SESSION_LIFETIME_SECONDS
    · simp only [if_pos hexp]
      constructor
      · intro hh; exact absurd hh (by simp)
      · rintro ⟨hi, hle, -⟩
        obtain rfl := Option.some.inj hi
        exact absurd hexp (Nat.not_lt.mpr hle)
    · simp only [if_neg hexp]
      by_cases hip : i.ip_address ≠ get_real_ip r
      · simp only [if_pos hip]
        constructor
        · intro hh; exact absurd hh (by simp)
        · rintro ⟨hi, -, hipeq⟩
          obtain rfl := Option.some.inj hi
          exact absurd hipeq hip
      · simp only [if_neg hip]
        rw [not_ne_iff] at hip
        constructor
        · intro hh
          have hinfo : i = info := by simpa using hh
          subst hinfo
          exact ⟨rfl, Nat.not_lt.mp hexp, hip⟩
        · rintro ⟨hi, -, -⟩
          obtain rfl := Option.some.inj hi
          rfl

/-- When the gate answers `valid` it has not touched the session dict. -/
theorem require_session_valid_frame (ss : Sessions) (body : ReqBody)
    (r : Request) (now : Nat) (info : SessionInfo)
    (h : (require_session ss body r now).1 = .valid info) :
    (require_session ss body r now).2 = ss := by
  cases body with
  | malformed => simp [require_session] at h
  | nullBody => simp [require_session] at h
  | falsyNonObject => simp [require_session] at h
  | truthyNonIterable => simp [require_session] at h
  | truthyIterable b => cases b <;> simp [require_session] at h
  | obj fields =>
    cases hf : fieldGet fields ("session_token") with
    | none => simp [require_session, ReqBody.get, hf] at h
    | some t =>
      cases hs : sGet ss t with
      | none => simp [require_session, ReqBody.get, hf, hs] at h
      | some i =>
        by_cases hexp : now - i.creation_time > SESSION_LIFETIME_SECONDS
        · simp [require_session, ReqBody.get, hf, hs, hexp] at h
        · by_cases hip : i.ip_address ≠ get_real_ip r
          · simp [require_session, ReqBody.get, hf, hs, hexp, hip] at h
          · rw [not_ne_iff] at hip
            simp [require_session, ReqBody.get, hf, hs, hexp, hip]

/-- Unfolding `/validate` on an object body whose two required fields are
present and nonempty. -/
theorem validate_obj (db : DB) (ss : Sessions)
    (fields : List (String × String)) (r : Request) (now : Nat)
    (tok lk mc : String)
    (hlk : fieldGet fields ("license_key") = some lk)
    (hmc : fieldGet fields ("machine_code") = some mc)
    (hlk1 : lk ≠ "") (hmc1 : mc ≠ "") :
    validate_license db ss (.obj fields) r now tok =
      match dbGet db lk with
      | none => ⟨404, "License key not found.", none, db, ss⟩
      | some lic =>
        if lic.status ≠ "active" then
          ⟨403, "License is not active (status: " ++ lic.status ++ ").",
            none, db, ss⟩
        else if lic.hwid.getD ("") = ("") then
          ⟨200, "Validation successful. Session created.", some tok,
            dbSet db lk ⟨some mc, some (get_real_ip r), lic.status⟩,
            sPut ss tok ⟨lk, get_real_ip r, now⟩⟩
        else if lic.hwid ≠ some mc then
          ⟨403, "HWID does not match.", none, db, ss⟩
        else if lic.ip_address ≠ some (get_real_ip r) then
          ⟨403, "IP address does not match.", none, db, ss⟩
        else
          ⟨200, "Validation successful. Session created.", some tok,
            db, sPut ss tok ⟨lk, get_real_ip r, now⟩⟩ := by
  simp [validate_license, ReqBody.get, hlk, hmc, hlk1, hmc1]

/-- First activation: an active license with falsy (NULL or empty) hwid is
bound to the presented machine code and originating address. -/
theorem validate_firstBind (db : DB) (ss : Sessions)
    (fields : List (String × String)) (r : Request) (now : Nat)
    (tok lk mc : String) (lic : License)
    (hlk : fieldGet fields ("license_key") = some lk)
    (hmc : fieldGet fields ("machine_code") = some mc)
    (hlk1 : lk ≠ "") (hmc1 : mc ≠ "")
    (hdb : dbGet db lk = some lic) (hact : lic.status = "active")
    (hunbound : lic.hwid.getD ("") = ("")) :
    validate_license db ss (.obj fields) r now tok =
      ⟨200, "Validation successful. Session created.", some tok,
        dbSet db lk ⟨some mc, some (get_real_ip r), "active"⟩,
        sPut ss tok ⟨lk, get_real_ip r, now⟩⟩ := by
  rw [validate_obj db ss fields r now tok lk mc hlk hmc hlk1 hmc1, hdb]
  simp [hact, hunbound]

/-- Re-validation of a bound license with matching hwid and address. -/
theorem validate_boundMatch (db : DB) (ss : Sessions)
    (fields : List (String × String)) (r : Request) (now : Nat)
    (tok lk mc : String) (lic : License)
    (hlk : fieldGet fields ("license_key") = some lk)
    (hmc : fieldGet fields ("machine_code") = some mc)
    (hlk1 : lk ≠ "") (hmc1 : mc ≠ "")
    (hdb : dbGet db lk = some lic) (hact : lic.status = "active")
    (hbound : lic.hwid = some mc)
    (hip : lic.ip_address = some (get_real_ip r)) :
    validate_license db ss (.obj fields) r now tok =
      ⟨200, "Validation successful. Session created.", some tok,
        db, sPut ss tok ⟨lk, get_real_ip r, now⟩⟩ := by
  rw [validate_obj db ss fields r now tok lk mc hlk hmc hlk1 hmc1, hdb]
  simp [hact, hbound, hip, hmc1]

/-- A bound license presented with a different machine code is rejected
with the hwid-mismatch message and nothing changes. -/
theorem validate_hwidMismatch (db : DB) (ss : Sessions)
    (fields : List (String × String)) (r : Request) (now : Nat)
    (tok lk mc : String) (lic : License)
    (hlk : fieldGet fields ("license_key") = some lk)
    (hmc : fieldGet fields ("machine_code") = some mc)
    (hlk1 : lk ≠ "") (hmc1 : mc ≠ "")
    (hdb : dbGet db lk = some lic) (hact : lic.status = "active")
    (hbound : lic.hwid.getD ("") ≠ ("")) (hne : lic.hwid ≠ some mc) :
    validate_license db ss (.obj fields) r now tok =
      ⟨403, "HWID does not match.", none, db, ss⟩ := by
  rw [validate_obj db ss fields r now tok lk mc hlk hmc hlk1 hmc1, hdb]
  simp [hact, hbound, hne]

/-- A bound license presented from a different address is rejected with
the address-mismatch message and nothing changes. -/
theorem validate_addrMismatch (db : DB) (ss : Sessions)
    (fields : List (String × String)) (r : Request) (now : Nat)
    (tok lk mc : String) (lic : License)
    (hlk : fieldGet fields ("license_key") = some lk)
    (hmc : fieldGet fields ("machine_code") = some mc)
    (hlk1 : lk ≠ "") (hmc1 : mc ≠ "")
    (hdb : dbGet db lk = some lic) (hact : lic.status = "active")
    (hbound : lic.hwid = some mc)
    (hip : lic.ip_address ≠ some (get_real_ip r)) :
    validate_license db ss (.obj fields) r now tok =
      ⟨403, "IP address does not match.", none, db, ss⟩ := by
  rw [validate_obj db ss fields r now tok lk mc hlk hmc hlk1 hmc1, hdb]
  simp [hact, hbound, hip, hmc1]

/-- Claim C1, counterexample: a token issued at time 0 and resolved at
exactly `SESSION_LIFETIME_SECONDS` from its bound address resolves
`Valid`, because the code expires only on `elapsed > lifetime` — contrary
to the claim that a resolve at exactly the lifetime window is not Valid. -/
theorem C1_counterexample :
    (require_session [("tok1", ⟨"K", "1.2.3.4", 0⟩)]
        (.obj [("session_token", "tok1")]) ⟨none, "1.2.3.4"⟩
        SESSION_LIFETIME_SECONDS).1
      = GateResult.valid ⟨"K", "1.2.3.4", 0⟩ := by decide

/-- Claim C1 as amended: a token resolution is `Valid` if and only if the
token is in the registry, the elapsed time is at most (not strictly less
than) the lifetime window, and the originating address matches the one
recorded at issuance. -/
theorem C1_amended (ss : Sessions) (fields : List (String × String))
    (r : Request) (now : Nat) (t : String) (info : SessionInfo)
    (ht : fieldGet fields ("session_token") = some t) :
    (require_session ss (.obj fields) r now).1 = .valid info ↔
      sGet ss t = some info ∧
      now - info.creation_time ≤ SESSION_LIFETIME_SECONDS ∧
      info.ip_address = get_real_ip r :=
  gate_valid_iff ss fields r now t info ht

/-- Witness for `C1_amended` at a concrete registry and request. -/
theorem C1_amended_witness :
    (require_session [("tok1", ⟨"K", "1.2.3.4", 0⟩)]
        (.obj [("session_token", "tok1")]) ⟨none, "1.2.3.4"⟩ 7199).1
      = GateResult.valid ⟨"K", "1.2.3.4", 0⟩ :=
  (C1_amended [("tok1", ⟨"K", "1.2.3.4", 0⟩)] [("session_token", "tok1")]
      ⟨none, "1.2.3.4"⟩ 7199 ("tok1") ⟨"K", "1.2.3.4", 0⟩ (by decide)).mpr
    ⟨by decide, by decide, by decide⟩

/-- Claim C2, counterexample: resolving an expired token twice gives
`Expired` the first time but `NotFound` ("Invalid session token") the
second, because the first resolve pops the token from the registry. -/
theorem C2_counterexample :
    require_session [("tok1", ⟨"K", "1.2.3.4", 0⟩)]
        (.obj [("session_token", "tok1")]) ⟨none, "1.2.3.4"⟩ 7201
      = (GateResult.expired, []) ∧
    (require_session
        (require_session [("tok1", ⟨"K", "1.2.3.4", 0⟩)]
          (.obj [("session_token", "tok1")]) ⟨none, "1.2.3.4"⟩ 7201).2
        (.obj [("session_token", "tok1")]) ⟨none, "1.2.3.4"⟩ 7201).1
      = GateResult.notFound := by decide

/-- Claim C2 as amended: the first resolve of an expired token answers
`Expired` and removes the token; any later resolve of the same token
answers `NotFound`, and the token never becomes valid again (the registry
no longer contains it). -/
theorem C2_amended (ss : Sessions) (fields : List (String × String))
    (r r2 : Request) (now now2 : Nat) (t : String) (info : SessionInfo)
    (ht : fieldGet fields ("session_token") = some t)
    (hs : sGet ss t = some info)
    (hexp : now - info.creation_time > SESSION_LIFETIME_SECONDS) :
    require_session ss (.obj fields) r now = (.expired, sPop ss t) ∧
    require_session (sPop ss t) (.obj fields) r2 now2
      = (GateResult.notFound, sPop ss t) := by
  refine ⟨gate_expired ss fields r now t info ht hs hexp, ?_⟩
  exact gate_notFound (sPop ss t) fields r2 now2 t ht (sGet_sPop ss t)

/-- Witness for `C2_amended` at a concrete expired session. -/
theorem C2_amended_witness :
    require_session [("tok1", ⟨"K", "1.2.3.4", 0⟩)]
        (.obj [("session_token", "tok1")]) ⟨none, "1.2.3.4"⟩ 7201
      = (GateResult.expired, []) ∧
    require_session [] (.obj [("session_token", "tok1")]) ⟨none, "1.2.3.4"⟩ 9000
      = (GateResult.notFound, []) := by
  have h := C2_amended [("tok1", ⟨"K", "1.2.3.4", 0⟩)] [("session_token", "tok1")]
      ⟨none, "1.2.3.4"⟩ ⟨none, "1.2.3.4"⟩ 7201 9000 ("tok1") ⟨"K", "1.2.3.4", 0⟩
      (by decide) (by decide) (by decide)
  simpa using h

/-- Claim C3, counterexample: a resolve of an unexpired token from the
wrong address answers `AddressMismatch` but leaves the registry unchanged,
and a subsequent resolve from the correct original address answers
`Valid`, not `NotFound`. -/
theorem C3_counterexample :
    require_session [("tok1", ⟨"K", "1.2.3.4", 0⟩)]
        (.obj [("session_token", "tok1")]) ⟨none, "5.6.7.8"⟩ 100
      = (GateResult.ipMismatch, [("tok1", ⟨"K", "1.2.3.4", 0⟩)]) ∧
    (require_session
        (require_session [("tok1", ⟨"K", "1.2.3.4", 0⟩)]
          (.obj [("session_token", "tok1")]) ⟨none, "5.6.7.8"⟩ 100).2
        (.obj [("session_token", "tok1")]) ⟨none, "1.2.3.4"⟩ 200).1
      = GateResult.valid ⟨"K", "1.2.3.4", 0⟩ := by decide

/-- Claim C3 as amended: a resolve of an unexpired token from a different
address answers `AddressMismatch` and does not destroy the token — the
registry is unchanged, and a subsequent in-lifetime resolve from the
correct original address answers `Valid`. -/
theorem C3_amended (ss : Sessions) (fields : List (String × String))
    (r r2 : Request) (now now2 : Nat) (t : String) (info : SessionInfo)
    (ht : fieldGet fields ("session_token") = some t)
    (hs : sGet ss t = some info)
    (hlife : now - info.creation_time ≤ SESSION_LIFETIME_SECONDS)
    (hmis : info.ip_address ≠ get_real_ip r)
    (hlife2 : now2 - info.creation_time ≤ SESSION_LIFETIME_SECONDS)
    (hcorrect : info.ip_address = get_real_ip r2) :
    require_session ss (.obj fields) r now = (.ipMismatch, ss) ∧
    (require_session ss (.obj fields) r2 now2).1 = .valid info := by
  refine ⟨gate_ipMismatch ss fields r now t info ht hs hlife hmis, ?_⟩
  exact (gate_valid_iff ss fields r2 now2 t info ht).mpr ⟨hs, hlife2, hcorrect⟩

/-- Witness for `C3_amended` at a concrete session and pair of requests. -/
theorem C3_amended_witness :
    require_session [("tok1", ⟨"K", "1.2.3.4", 0⟩)]
        (.obj [("session_token", "tok1")]) ⟨none, "5.6.7.8"⟩ 100
      = (GateResult.ipMismatch, [("tok1", ⟨"K", "1.2.3.4", 0⟩)]) ∧
    (require_session [("tok1", ⟨"K", "1.2.3.4", 0⟩)]
        (.obj [("session_token", "tok1")]) ⟨none, "1.2.3.4"⟩ 200).1
      = GateResult.valid ⟨"K", "1.2.3.4", 0⟩ :=
  C3_amended [("tok1", ⟨"K", "1.2.3.4", 0⟩)] [("session_token", "tok1")]
    ⟨none, "5.6.7.8"⟩ ⟨none, "1.2.3.4"⟩ 100 200 ("tok1") ⟨"K", "1.2.3.4", 0⟩
    (by decide) (by decide) (by decide) (by decide) (by decide) (by decide)

/-- Claim C4, counterexample: for the same unbound active license, the
spec's binder consults the authority and, when the authority rejects,
propagates the reason and does not bind — but the code's
`validate_license` accepts and binds unconditionally: it contains no
authority call at all, so no validation (first or repeat) is confirmed
externally. -/
theorem C4_counterexample :
    spec_validate (fun _ _ => .reject ("externally revoked"))
        [("K", ⟨none, none, "active"⟩)] "K" "H1" "1.2.3.4"
      = (.rejected ("externally revoked"), [("K", ⟨none, none, "active"⟩)]) ∧
    validate_license [("K", ⟨none, none, "active"⟩)] []
        (.obj [("license_key", "K"), ("machine_code", "H1")])
        ⟨none, "1.2.3.4"⟩ 50 ("tokN")
      = ⟨200, "Validation successful. Session created.", some ("tokN"),
          [("K", ⟨some ("H1"), some ("1.2.3.4"), "active"⟩)],
          [("tokN", ⟨"K", "1.2.3.4", 50⟩)]⟩ := by decide

/-- Claim C4 as amended: no external license authority is consulted on any
validation — the outcome depends only on the local licenses table, the
request and the clock.  In particular a validation of an active, unbound
license binds (hwid, address) and is accepted unconditionally, with no
external input able to reject it. -/
theorem C4_amended (db : DB) (ss : Sessions)
    (fields : List (String × String)) (r : Request) (now : Nat)
    (tok lk mc : String) (lic : License)
    (hlk : fieldGet fields ("license_key") = some lk)
    (hmc : fieldGet fields ("machine_code") = some mc)
    (hlk1 : lk ≠ "") (hmc1 : mc ≠ "")
    (hdb : dbGet db lk = some lic) (hact : lic.status = "active")
    (hunbound : lic.hwid = none) :
    validate_license db ss (.obj fields) r now tok =
      ⟨200, "Validation successful. Session created.", some tok,
        dbSet db lk ⟨some mc, some (get_real_ip r), "active"⟩,
        sPut ss tok ⟨lk, get_real_ip r, now⟩⟩ :=
  validate_firstBind db ss fields r now tok lk mc lic hlk hmc hlk1 hmc1
    hdb hact (by rw [hunbound]; rfl)

/-- Witness for `C4_amended` at a concrete unbound active license. -/
theorem C4_amended_witness :
    validate_license [("K", ⟨none, none, "active"⟩)] []
        (.obj [("license_key", "K"), ("machine_code", "H1")])
        ⟨none, "1.2.3.4"⟩ 50 ("tokN")
      = ⟨200, "Validation successful. Session created.", some ("tokN"),
          [("K", ⟨some ("H1"), some ("1.2.3.4"), "active"⟩)],
          [("tokN", ⟨"K", "1.2.3.4", 50⟩)]⟩ := by
  have h := C4_amended [("K", ⟨none, none, "active"⟩)] []
      [("license_key", "K"), ("machine_code", "H1")] ⟨none, "1.2.3.4"⟩ 50
      "tokN" "K" "H1" ⟨none, none, "active"⟩
      (by decide) (by decide) (by decide) (by decide) (by decide) (by decide)
      (by decide)
  simpa using h

/-- Claim C5: for an active, unbound license, a first validation with
hwid `H` from the request's originating address binds that pair and
answers success with the issued token; re-validation with the same hwid
from the same address succeeds; a different hwid is rejected with
"HWID does not match." and a different address with
"IP address does not match.", neither rejection changing the table or
the session dict. -/
theorem C5_binding_scenario (db : DB) (ss ss2 ss3 ss4 : Sessions)
    (r : Request) (now now2 now3 now4 : Nat) (tok tok2 tok3 tok4 : String)
    (k H : String) (lic : License)
    (hk : k ≠ "") (hH : H ≠ "")
    (hdb : dbGet db k = some lic) (hact : lic.status = "active")
    (hunbound : lic.hwid = none) :
    validate_license db ss (.obj [("license_key", k), ("machine_code", H)])
        r now tok
      = ⟨200, "Validation successful. Session created.", some tok,
          dbSet db k ⟨some H, some (get_real_ip r), "active"⟩,
          sPut ss tok ⟨k, get_real_ip r, now⟩⟩ ∧
    validate_license (dbSet db k ⟨some H, some (get_real_ip r), "active"⟩)
        ss2 (.obj [("license_key", k), ("machine_code", H)]) r now2 tok2
      = ⟨200, "Validation successful. Session created.", some tok2,
          dbSet db k ⟨some H, some (get_real_ip r), "active"⟩,
          sPut ss2 tok2 ⟨k, get_real_ip r, now2⟩⟩ ∧
    (∀ H2, H2 ≠ "" → H2 ≠ H →
      validate_license (dbSet db k ⟨some H, some (get_real_ip r), "active"⟩)
          ss3 (.obj [("license_key", k), ("machine_code", H2)]) r now3 tok3
        = ⟨403, "HWID does not match.", none,
            dbSet db k ⟨some H, some (get_real_ip r), "active"⟩, ss3⟩) ∧
    (∀ r4 : Request, get_real_ip r4 ≠ get_real_ip r →
      validate_license (dbSet db k ⟨some H, some (get_real_ip r), "active"⟩)
          ss4 (.obj [("license_key", k), ("machine_code", H)]) r4 now4 tok4
        = ⟨403, "IP address does not match.", none,
            dbSet db k ⟨some H, some (get_real_ip r), "active"⟩, ss4⟩) := by
  have hlk : fieldGet [("license_key", k), ("machine_code", H)]
      ("license_key") = some k := by simp [fieldGet]
  have hmc : fieldGet [("license_key", k), ("machine_code", H)]
      ("machine_code") = some H := by simp [fieldGet]
  have hdb1 : dbGet (dbSet db k ⟨some H, some (get_real_ip r), "active"⟩) k
      = some ⟨some H, some (get_real_ip r), "active"⟩ :=
    dbGet_dbSet_self db k lic _ hdb
  refine ⟨?_, ?_, ?_, ?_⟩
  · exact validate_firstBind db ss _ r now tok k H lic hlk hmc hk hH hdb hact
      (by rw [hunbound]; rfl)
  · exact validate_boundMatch _ ss2 _ r now2 tok2 k H _ hlk hmc hk hH hdb1
      rfl rfl rfl
  · intro H2 hH2 hne
    have hlk2 : fieldGet [("license_key", k), ("machine_code", H2)]
        ("license_key") = some k := by simp [fieldGet]
    have hmc2 : fieldGet [("license_key", k), ("machine_code", H2)]
        ("machine_code") = some H2 := by simp [fieldGet]
    exact validate_hwidMismatch _ ss3 _ r now3 tok3 k H2 _ hlk2 hmc2 hk hH2
      hdb1 rfl (by simpa using hH) (by simp only [ne_eq, Option.some.injEq]; exact fun hh => hne hh.symm)
  · intro r4 hr4
    exact validate_addrMismatch _ ss4 _ r4 now4 tok4 k H _ hlk hmc hk hH
      hdb1 rfl rfl (by simp only [ne_eq, Option.some.injEq]; exact fun hh => hr4 hh.symm)

/-- Witness for `C5_binding_scenario`: the spec's `ABC123` scenario. -/
theorem C5_binding_scenario_witness :
    validate_license [("ABC123", ⟨none, none, "active"⟩)] []
        (.obj [("license_key", "ABC123"), ("machine_code", "H1")])
        ⟨none, "1.2.3.4"⟩ 0 ("T1")
      = ⟨200, "Validation successful. Session created.", some ("T1"),
          [("ABC123", ⟨some ("H1"), some ("1.2.3.4"), "active"⟩)],
          [("T1", ⟨"ABC123", "1.2.3.4", 0⟩)]⟩ ∧
    validate_license [("ABC123", ⟨some ("H1"), some ("1.2.3.4"), "active"⟩)] []
        (.obj [("license_key", "ABC123"), ("machine_code", "H2")])
        ⟨none, "1.2.3.4"⟩ 1 ("T2")
      = ⟨403, "HWID does not match.", none,
          [("ABC123", ⟨some ("H1"), some ("1.2.3.4"), "active"⟩)], []⟩ := by
  have h := C5_binding_scenario [("ABC123", ⟨none, none, "active"⟩)] [] [] [] []
      ⟨none, "1.2.3.4"⟩ 0 1 1 1 ("T1") "T2" "T2" "T2" "ABC123" "H1"
      ⟨none, none, "active"⟩ (by decide) (by decide) (by decide) (by decide)
      (by decide)
  have h3 := h.2.2.1 ("H2") (by decide) (by decide)
  refine ⟨by simpa using h.1, by simpa using h3⟩

/-- Claim C6, counterexample: a license row whose hwid is already set —
non-NULL, here the empty string — is rebound by a validation call: the
check `if not license_data['hwid']` treats the empty string like NULL, so
the stored hwid and address are overwritten. -/
theorem C6_counterexample :
    dbGet [("K", ⟨some (""), some ("1.1.1.1"), "active"⟩)] "K"
      = some ⟨some (""), some ("1.1.1.1"), "active"⟩ ∧
    (validate_license [("K", ⟨some (""), some ("1.1.1.1"), "active"⟩)] []
        (.obj [("license_key", "K"), ("machine_code", "H2")])
        ⟨none, "2.2.2.2"⟩ 10 ("tokN")).db
      = [("K", ⟨some ("H2"), some ("2.2.2.2"), "active"⟩)] := by decide

/-- Claim C6 as amended: for every license record whose hwid is set to a
nonempty string, no validation call — successful or failed, for this or
any other key — changes the stored row: the bound (hwid, address) pair is
immutable under `validate_license`, the only operation that touches the
table. -/
theorem C6_amended (db : DB) (ss : Sessions) (body : ReqBody) (r : Request)
    (now : Nat) (tok : String) (k : String) (lic : License)
    (hdb : dbGet db k = some lic) (hbound : lic.hwid.getD ("") ≠ ("")) :
    dbGet (validate_license db ss body r now tok).db k = some lic := by
  cases body with
  | malformed => exact hdb
  | nullBody => exact hdb
  | falsyNonObject => exact hdb
  | truthyNonIterable => exact hdb
  | truthyIterable b => exact hdb
  | obj fields =>
    cases hlk : fieldGet fields ("license_key") with
    | none => simp [validate_license, ReqBody.get, hlk, hdb]
    | some lk =>
      by_cases hlk1 : lk = ""
      · simp [validate_license, ReqBody.get, hlk, hlk1, hdb]
      · cases hmc : fieldGet fields ("machine_code") with
        | none => simp [validate_license, ReqBody.get, hlk, hmc, hdb]
        | some mc =>
          by_cases hmc1 : mc = ""
          · simp [validate_license, ReqBody.get, hlk, hmc, hmc1, hdb]
          · rw [validate_obj db ss fields r now tok lk mc
              (by simpa using hlk) (by simpa using hmc) hlk1 hmc1]
            cases hg : dbGet db lk with
            | none => exact hdb
            | some lic2 =>
              by_cases hst : lic2.status ≠ "active"
              · simp only [if_pos hst]; exact hdb
              · simp only [if_neg hst]
                by_cases hw : lic2.hwid.getD ("") = ("")
                · simp only [if_pos hw]
                  by_cases hkk : lk = k
                  · subst hkk
                    rw [hdb] at hg
                    obtain rfl := Option.some.inj hg
                    exact absurd hw hbound
                  · rw [dbGet_dbSet_ne db lk k _ (fun hh => hkk hh.symm)]
                    exact hdb
                · simp only [if_neg hw]
                  by_cases hne : lic2.hwid ≠ some mc
                  · simp only [if_pos hne]; exact hdb
                  · simp only [if_neg hne]
                    by_cases hip : lic2.ip_address ≠ some (get_real_ip r)
                    · simp only [if_pos hip]; exact hdb
                    · simp only [if_neg hip]; exact hdb

/-- Witness for `C6_amended`: a bound row survives a mismatched
re-validation attempt unchanged. -/
theorem C6_amended_witness :
    dbGet (validate_license [("K", ⟨some ("H1"), some ("1.2.3.4"), "active"⟩)] []
        (.obj [("license_key", "K"), ("machine_code", "H2")])
        ⟨none, "9.9.9.9"⟩ 10 ("tokN")).db ("K")
      = some ⟨some ("H1"), some ("1.2.3.4"), "active"⟩ :=
  C6_amended [("K", ⟨some ("H1"), some ("1.2.3.4"), "active"⟩)] []
    (.obj [("license_key", "K"), ("machine_code", "H2")]) ⟨none, "9.9.9.9"⟩
    10 ("tokN") "K" ⟨some ("H1"), some ("1.2.3.4"), "active"⟩ (by decide) (by decide)

/-- On any non-`valid` gate outcome the wrapped handler never runs: the
gated call returns the gate's own response, whatever the handler is. -/
theorem gatedCall_fail (ss : Sessions) (body : ReqBody) (r : Request)
    (now : Nat) (g : GateResult) (ss1 : Sessions)
    (hres : require_session ss body r now = (g, ss1))
    (hfail : ∀ i, g ≠ .valid i)
    (h1 : SessionInfo → Sessions → (Nat × String) × Sessions) :
    gatedCall h1 ss body r now = ((gateResponse g).getD (0, ("")), ss1) := by
  unfold gatedCall
  rw [hres]
  cases g with
  | valid i => exact absurd rfl (hfail i)
  | badRequest => rfl
  | serverError => rfl
  | missing => rfl
  | notFound => rfl
  | expired => rfl
  | ipMismatch => rfl

/-- On a parseable body that the decorator's own checks survive (not one
of the `TypeError` paths), a failing gate outcome is one of the
decorator's four rejection reasons. -/
theorem gate_result_cases (ss : Sessions) (body : ReqBody) (r : Request)
    (now : Nat) (g : GateResult) (ss1 : Sessions)
    (hbody : body ≠ .malformed)
    (hb2 : body ≠ .truthyNonIterable)
    (hb3 : body ≠ .truthyIterable true)
    (hres : require_session ss body r now = (g, ss1))
    (hfail : ∀ i, g ≠ .valid i) :
    g = .missing ∨ g = .notFound ∨ g = .expired ∨ g = .ipMismatch := by
  cases body with
  | malformed => exact absurd rfl hbody
  | nullBody =>
    have hg : GateResult.missing = g := congrArg Prod.fst hres
    exact Or.inl hg.symm
  | falsyNonObject =>
    have hg : GateResult.missing = g := congrArg Prod.fst hres
    exact Or.inl hg.symm
  | truthyNonIterable => exact absurd rfl hb2
  | truthyIterable b =>
    cases b with
    | true => exact absurd rfl hb3
    | false =>
      have hg : GateResult.missing = g := congrArg Prod.fst hres
      exact Or.inl hg.symm
  | obj fields =>
    cases hf : fieldGet fields ("session_token") with
    | none =>
      have hmiss : require_session ss (.obj fields) r now = (.missing, ss) := by
        simp [require_session, ReqBody.get, hf]
      rw [hmiss] at hres
      exact Or.inl (congrArg Prod.fst hres).symm
    | some t =>
      cases hs : sGet ss t with
      | none =>
        rw [gate_notFound ss fields r now t hf hs] at hres
        exact Or.inr (Or.inl (congrArg Prod.fst hres).symm)
      | some i =>
        by_cases hexp : now - i.creation_time > SESSION_LIFETIME_SECONDS
        · rw [gate_expired ss fields r now t i hf hs hexp] at hres
          exact Or.inr (Or.inr (Or.inl (congrArg Prod.fst hres).symm))
        · by_cases hip : i.ip_address ≠ get_real_ip r
          · rw [gate_ipMismatch ss fields r now t i hf hs
              (Nat.not_lt.mp hexp) hip] at hres
            exact Or.inr (Or.inr (Or.inr (congrArg Prod.fst hres).symm))
          · rw [not_ne_iff] at hip
            have hval : (require_session ss (.obj fields) r now).1
                = .valid i :=
              (gate_valid_iff ss fields r now t i hf).mpr
                ⟨hs, Nat.not_lt.mp hexp, hip⟩
            rw [hres] at hval
            exact absurd hval (hfail i)

/-- Claim C7: once a call has passed the session gate and holds the
configured downstream key, a transport-level downstream failure is
answered 502 immediately with the failure surfaced, the session registry
is exactly as it was before the call, and the handler never issues a
second downstream request — its outcome only depends on attempt 0. -/
theorem C7_relay_failure_frame (apiKey : Option String)
    (d : Nat → StartParams → Downstream) (ss : Sessions) (body : ReqBody)
    (r : Request) (now : Nat) (info : SessionInfo) (e : String)
    (hvalid : (require_session ss body r now).1 = .valid info)
    (hkey : apiKey.getD ("") ≠ (""))
    (hfail : d 0 ⟨body.get ("host"), body.get ("port"), body.get ("time"),
        body.get ("method")⟩ = .failure e) :
    proxy_start apiKey d ss body r now
      = ((502, "Failed to contact service: " ++ e), ss) ∧
    (∀ d2 : Nat → StartParams → Downstream,
      (∀ q, d2 0 q = d 0 q) →
      proxy_start apiKey d2 ss body r now
        = proxy_start apiKey d ss body r now) := by
  have hframe := require_session_valid_frame ss body r now info hvalid
  have hpair : require_session ss body r now = (.valid info, ss) :=
    Prod.ext_iff.mpr ⟨hvalid, hframe⟩
  constructor
  · simp [proxy_start, gatedCall, hpair, hkey, hfail]
  · intro d2 hd2
    simp [proxy_start, gatedCall, hpair, hkey, hd2]

/-- Witness for `C7_relay_failure_frame` at a concrete session and a
downstream that times out. -/
theorem C7_relay_failure_frame_witness :
    proxy_start (some ("SECRET"))
        (fun _ _ => Downstream.failure ("timed out"))
        [("tok1", ⟨"K", "1.2.3.4", 0⟩)]
        (.obj [("session_token", "tok1"), ("host", "10.0.0.1")])
        ⟨none, "1.2.3.4"⟩ 60
      = ((502, "Failed to contact service: timed out"),
          [("tok1", ⟨"K", "1.2.3.4", 0⟩)]) :=
  (C7_relay_failure_frame (some ("SECRET"))
    (fun _ _ => Downstream.failure ("timed out"))
    [("tok1", ⟨"K", "1.2.3.4", 0⟩)]
    (.obj [("session_token", "tok1"), ("host", "10.0.0.1")])
    ⟨none, "1.2.3.4"⟩ 60 ⟨"K", "1.2.3.4", 0⟩ "timed out"
    (by decide) (by decide) (by decide)).1

/-- Claim C8, counterexample: a privileged call whose parseable body is a
truthy non-iterable JSON value (such as `5` or `true`) fails the session
gate with the framework's generic 500 "Internal Server Error" — raised by
`TypeError` at the decorator's membership test — which is none of the four
specific reasons, and likewise for a truthy string or array body that
contains the token field name (the subscript raises).  The claim's
"never a single generic denial" is therefore false. -/
theorem C8_counterexample :
    gatedCall (fun _ s => ((200, ("ok")), s)) []
        ReqBody.truthyNonIterable ⟨none, "1.2.3.4"⟩ 0
      = ((500, "Internal Server Error"), []) ∧
    gatedCall (fun _ s => ((200, ("ok")), s)) []
        (ReqBody.truthyIterable true) ⟨none, "1.2.3.4"⟩ 0
      = ((500, "Internal Server Error"), []) ∧
    ((500, "Internal Server Error") : Nat × String)
        ∉ [(401, "Session token missing."), (401, "Invalid session token."),
            (401, "Session has expired."), (401, "IP address mismatch.")] := by
  decide

/-- Claim C8 as amended: on every parseable body that the decorator's own
checks survive — not a truthy non-iterable and not a truthy string or
array containing the token field name, which instead crash into a generic
500 — a gate failure is one of the four specific reasons, the four
reasons carry four pairwise distinct messages, the guarded handler body
is never executed (the result is the same for every handler), and the
response returned is exactly the failure's own specific message and
status. -/
theorem C8_specific_reasons (ss : Sessions) (body : ReqBody) (r : Request)
    (now : Nat) (g : GateResult) (ss1 : Sessions)
    (hbody : body ≠ .malformed)
    (hb2 : body ≠ .truthyNonIterable)
    (hb3 : body ≠ .truthyIterable true)
    (hres : require_session ss body r now = (g, ss1))
    (hfail : ∀ i, g ≠ .valid i) :
    (g = .missing ∨ g = .notFound ∨ g = .expired ∨ g = .ipMismatch) ∧
    (∀ h1 h2 : SessionInfo → Sessions → (Nat × String) × Sessions,
      gatedCall h1 ss body r now = gatedCall h2 ss body r now) ∧
    (∀ h1 : SessionInfo → Sessions → (Nat × String) × Sessions,
      gatedCall h1 ss body r now = ((gateResponse g).getD (0, ("")), ss1)) ∧
    List.Pairwise (fun a b => gateResponse a ≠ gateResponse b)
      [GateResult.missing, GateResult.notFound, GateResult.expired,
        GateResult.ipMismatch] := by
  refine ⟨gate_result_cases ss body r now g ss1 hbody hb2 hb3 hres hfail,
    fun h1 h2 => ?_,
    fun h1 => gatedCall_fail ss body r now g ss1 hres hfail h1,
    by decide⟩
  rw [gatedCall_fail ss body r now g ss1 hres hfail h1,
    gatedCall_fail ss body r now g ss1 hres hfail h2]

/-- Witness for `C8_specific_reasons`: an unknown token is answered with
the specific not-found message, with the handler ignored. -/
theorem C8_specific_reasons_witness :
    gatedCall (fun _ s => ((200, ("ok")), s)) []
        (.obj [("session_token", "tok9")]) ⟨none, "1.2.3.4"⟩ 0
      = ((401, "Invalid session token."), []) := by
  have h := C8_specific_reasons [] (.obj [("session_token", "tok9")])
      ⟨none, "1.2.3.4"⟩ 0 GateResult.notFound [] (by decide) (by decide)
      (by decide) (by decide) (fun i hh => nomatch hh)
  have h3 := h.2.2.1 (fun _ s => ((200, ("ok")), s))
  simpa using h3

/-- Claim C9, evaluated at the failing input: a parseable request body
that is not a JSON object makes the `/validate` handler crash
(`data.get` raises `AttributeError`), which surfaces as a 500 internal
server error — not the claimed 4xx — while an object body with the
fields absent does get the 400 ("Missing license key or machine code.")
response and an unparseable body gets the framework's 400. -/
theorem C9_nonobject_body_crashes (db : DB) (ss : Sessions) (r : Request)
    (now : Nat) (tok : String) :
    validate_license db ss ReqBody.nullBody r now tok
      = ⟨500, "Internal Server Error", none, db, ss⟩ ∧
    validate_license db ss ReqBody.falsyNonObject r now tok
      = ⟨500, "Internal Server Error", none, db, ss⟩ ∧
    validate_license db ss ReqBody.truthyNonIterable r now tok
      = ⟨500, "Internal Server Error", none, db, ss⟩ ∧
    (∀ b, validate_license db ss (ReqBody.truthyIterable b) r now tok
      = ⟨500, "Internal Server Error", none, db, ss⟩) ∧
    validate_license db ss (.obj []) r now tok
      = ⟨400, "Missing license key or machine code.", none, db, ss⟩ ∧
    validate_license db ss ReqBody.malformed r now tok
      = ⟨400, "Bad Request", none, db, ss⟩ := by
  refine ⟨rfl, rfl, rfl, fun b => rfl, ?_, rfl⟩
  simp [validate_license, ReqBody.get, fieldGet]

/-- Claim C10: the originating address is the stripped first
comma-separated entry of `X-Forwarded-For` whenever that header is
present — independent of the transport-level address — and the
transport-level `remote_addr` otherwise; it is this value that a first
validation binds into the license row, and this value the session gate
compares against the address recorded at issuance. -/
theorem C10_forwarded_address :
    (∀ h ra ra', get_real_ip ⟨some h, ra⟩ = get_real_ip ⟨some h, ra'⟩) ∧
    (∀ ra, get_real_ip ⟨none, ra⟩ = ra) ∧
    get_real_ip ⟨some ("203.0.113.7, 198.51.100.2"), "10.0.0.9"⟩
      = "203.0.113.7" ∧
    (∀ (db : DB) (ss : Sessions) (fields : List (String × String))
        (r : Request) (now : Nat) (tok lk mc : String) (lic : License),
      fieldGet fields ("license_key") = some lk →
      fieldGet fields ("machine_code") = some mc →
      lk ≠ "" → mc ≠ "" →
      dbGet db lk = some lic → lic.status = "active" → lic.hwid = none →
      dbGet (validate_license db ss (.obj fields) r now tok).db lk
        = some ⟨some mc, some (get_real_ip r), "active"⟩) ∧
    (∀ (ss : Sessions) (fields : List (String × String)) (r : Request)
        (now : Nat) (t : String) (info : SessionInfo),
      fieldGet fields ("session_token") = some t →
      sGet ss t = some info →
      now - info.creation_time ≤ SESSION_LIFETIME_SECONDS →
      ((require_session ss (.obj fields) r now).1 = .valid info ↔
        info.ip_address = get_real_ip r)) := by
  refine ⟨fun h ra ra' => rfl, fun ra => rfl, by decide, ?_, ?_⟩
  · intro db ss fields r now tok lk mc lic hlk hmc hlk1 hmc1 hdb hact hub
    rw [validate_firstBind db ss fields r now tok lk mc lic hlk hmc hlk1
      hmc1 hdb hact (by rw [hub]; rfl)]
    exact dbGet_dbSet_self db lk lic _ hdb
  · intro ss fields r now t info ht hs hle
    constructor
    · intro hv
      exact ((gate_valid_iff ss fields r now t info ht).mp hv).2.2
    · intro hip
      exact (gate_valid_iff ss fields r now t info ht).mpr ⟨hs, hle, hip⟩

/-- Witness for `C10_forwarded_address`: a client-supplied forwarded
header is what gets bound at first activation. -/
theorem C10_forwarded_address_witness :
    dbGet (validate_license [("K", ⟨none, none, "active"⟩)] []
        (.obj [("license_key", "K"), ("machine_code", "H")])
        ⟨some ("8.8.8.8, 1.1.1.1"), "9.9.9.9"⟩ 0 ("T")).db ("K")
      = some ⟨some ("H"), some ("8.8.8.8"), "active"⟩ := by
  have h := C10_forwarded_address.2.2.2.1 [("K", ⟨none, none, "active"⟩)] []
      [("license_key", "K"), ("machine_code", "H")]
      ⟨some ("8.8.8.8, 1.1.1.1"), "9.9.9.9"⟩ 0 ("T") "K" "H"
      ⟨none, none, "active"⟩ (by decide) (by decide) (by decide) (by decide)
      (by decide) (by decide) (by decide)
  rw [h]
  decide
